import Mathlib

/-!
Verification of the chunked payload reassembly handler in
`src/cast/js/receiver.js` (`onMessageReceived`, registered at line 241 as the
custom message listener).

The module-level state consists of `CopiedImageString`, `CopiedSoundString`,
`lastEventData`, `ImageCounter` and `totalAudio` (lines 245-249), plus the
DOM text `document.getElementById('message').innerHTML` which the handler
reads as a readiness gate and writes as a diagnostic (initialised to
`"testing"` at line 242).

External collaborators (`unityGame`, `game`, `document`, `castDebugLogger`,
`bitmapFontText`, `taskStarted`, `tasks`) are host-page globals; their calls
are modelled as total.  The observable sink calls are the
`unityGame.SendMessage("ImageHandler", ...)` pairs: `HandleSoundDataPart` /
`HandleSoundData` for the audio channel and `HandleImageDataPart` /
`HandleImageData` for the image channel.

Central control-flow fact: after the `"tasks"` early return (lines 262-272),
the handler runs the unconditional marker dispatch at lines 273-321
(`num == -1` / `num == 0` / else), and every branch of that dispatch ends in
`return`.  Hence lines 323-516 — the whole description-routed protocol,
including every sink call — are unreachable.  The reachable handler only
mutates `CopiedImageString` (for every non-"tasks" message, whatever its
`description`) and never performs a sink call.  The unreachable audio and
image protocol blocks (lines 405-463 and 464-516) are embedded separately
below as `audioBranch` and `imageBranch` so their intended behaviour can be
stated and compared.
-/

namespace CastReceiver

/-- `customEvent.data` as consumed by `onMessageReceived`: the `description`
(channel / message-kind selector), the numeric sequence marker `num`
(0 = start, -1 = end, anything else = middle) and the payload fragment
`message`.  Absent fields are `none` (JavaScript `undefined`). -/
structure ChunkMsg where
  description : Option String
  num : Option Int
  message : Option String
  deriving Repr, DecidableEq

/-- JavaScript string coercion used by `x += customEvent.data.message` and
`x = ""; x += customEvent.data.message`: an `undefined` field is coerced to
the 9-character string `"undefined"`. -/
def jsStr (m : Option String) : String :=
  match m with
  | some s => s
  | none => "undefined"

/-- One `unityGame.SendMessage("ImageHandler", method, content)` sink call. -/
inductive SinkCall where
  /-- `HandleSoundDataPart`: incremental audio content. -/
  | soundPart (content : String)
  /-- `HandleSoundData`: end-of-audio-payload. -/
  | soundFinal (content : String)
  /-- `HandleImageDataPart`: incremental image content. -/
  | imagePart (content : String)
  /-- `HandleImageData`: end-of-image-payload. -/
  | imageFinal (content : String)
  deriving Repr, DecidableEq

/-- Module-level mutable state of `receiver.js` (lines 242, 245-249).
`messageInnerHTML` is `document.getElementById('message').innerHTML`.
`ImageCounter` is declared at line 248 and never used. -/
structure ReceiverState where
  CopiedImageString : String
  CopiedSoundString : String
  lastEventData : Option ChunkMsg
  ImageCounter : Nat
  totalAudio : Nat
  messageInnerHTML : String
  deriving Repr, DecidableEq

/-- State at page load: empty buffers, zero counters and the `'message'`
element set to `"testing"` (line 242). -/
def initialState : ReceiverState :=
  { CopiedImageString := ""
    CopiedSoundString := ""
    lastEventData := none
    ImageCounter := 0
    totalAudio := 0
    messageInnerHTML := "testing" }

/-- `onMessageReceived` (lines 258-516), reachable semantics.

* line 260: `lastEventData = customEvent.data`;
* lines 262-272: `description == "tasks"` copies the parsed task list into
  host globals and returns — no receiver-state effect beyond `lastEventData`;
* lines 273-307: `num == -1` appends the fragment to `CopiedImageString`,
  performs external `game.textures` calls, and returns;
* lines 308-314: `num == 0` resets `CopiedImageString` to the fragment and
  returns;
* lines 315-321: any other `num` appends the fragment to `CopiedImageString`
  and returns.

Every branch returns, so lines 323-516 (all sink calls) never execute: the
call list is `[]` on every input, and the function is total (no exception
escapes the handler). -/
def onMessageReceived (s : ReceiverState) (e : ChunkMsg) :
    ReceiverState × List SinkCall :=
  let s := { s with lastEventData := some e }
  if e.description = some "tasks" then
    (s, [])
  else if e.num = some (-1) then
    ({ s with CopiedImageString := s.CopiedImageString ++ jsStr e.message }, [])
  else if e.num = some 0 then
    ({ s with CopiedImageString := jsStr e.message }, [])
  else
    ({ s with CopiedImageString := s.CopiedImageString ++ jsStr e.message }, [])

/-- Ingest a list of chunks in order, concatenating the sink-call traces. -/
def runChunks (s : ReceiverState) (es : List ChunkMsg) :
    ReceiverState × List SinkCall :=
  match es with
  | [] => (s, [])
  | e :: rest =>
    let r := onMessageReceived s e
    let r2 := runChunks r.1 rest
    (r2.1, r.2 ++ r2.2)

/-- The unreachable audio-channel protocol block, lines 405-463
(`description == "audio"`), embedded as written:

* `num == -1` (lines 407-424): if the gate is open, emit the buffer via
  `HandleSoundDataPart`; add the buffer length to `totalAudio`; write the
  diagnostic `"last <len> <total>"` into the `'message'` element; clear the
  buffer; if the gate is (now) open, emit the empty buffer via
  `HandleSoundData`;
* `num == 0` (lines 425-444): reset the buffer to the fragment; if its
  length is `< 1000`, then (gate permitting) emit it via
  `HandleSoundDataPart` and clear, then (gate permitting) emit the
  now-empty buffer via `HandleSoundData` and clear;
* otherwise (lines 445-461): append the fragment; if the buffer length is
  `> 5000` and the gate is open, add its length to `totalAudio`, write the
  diagnostic `"<len> <total>"`, emit via `HandleSoundDataPart` and clear.

The gate is `document.getElementById('message').innerHTML != "waiting"`. -/
def audioBranch (s : ReceiverState) (e : ChunkMsg) :
    ReceiverState × List SinkCall :=
  if e.num = some (-1) then
    let calls1 := if s.messageInnerHTML ≠ "waiting" then
        [SinkCall.soundPart s.CopiedSoundString] else []
    let total := s.totalAudio + s.CopiedSoundString.length
    let html := "last " ++ toString s.CopiedSoundString.length ++ " " ++
        toString total
    let s1 := { s with
      totalAudio := total
      messageInnerHTML := html
      CopiedSoundString := "" }
    let calls2 := if s1.messageInnerHTML ≠ "waiting" then
        [SinkCall.soundFinal s1.CopiedSoundString] else []
    (s1, calls1 ++ calls2)
  else if e.num = some 0 then
    let s1 := { s with CopiedSoundString := jsStr e.message }
    if s1.CopiedSoundString.length < 1000 then
      let p1 := if s1.messageInnerHTML ≠ "waiting" then
          ([SinkCall.soundPart s1.CopiedSoundString],
           { s1 with CopiedSoundString := "" })
        else ([], s1)
      let s2 := p1.2
      let p2 := if s2.messageInnerHTML ≠ "waiting" then
          ([SinkCall.soundFinal s2.CopiedSoundString],
           { s2 with CopiedSoundString := "" })
        else ([], s2)
      (p2.2, p1.1 ++ p2.1)
    else (s1, [])
  else
    let s1 := { s with CopiedSoundString := s.CopiedSoundString ++ jsStr e.message }
    if 5000 < s1.CopiedSoundString.length then
      if s1.messageInnerHTML ≠ "waiting" then
        let total := s1.totalAudio + s1.CopiedSoundString.length
        let html := "" ++ toString s1.CopiedSoundString.length ++ " " ++
            toString total
        ({ s1 with
            totalAudio := total
            messageInnerHTML := html
            CopiedSoundString := "" },
         [SinkCall.soundPart s1.CopiedSoundString])
      else (s1, [])
    else (s1, [])

/-- The unreachable image-channel protocol block, lines 464-516 (the default
route for every `description` that matched none of the earlier string
branches):

* `num == -1` (lines 464-478): gate permitting, emit the buffer via
  `HandleImageDataPart`; clear the buffer; write `"last "` into the
  `'message'` element; gate permitting, emit the now-empty buffer via
  `HandleImageData`;
* `num == 0` (lines 480-496): reset the buffer to the fragment; if its
  length is `< 1000`, gate permitting emit via `HandleImageDataPart`,
  clear (unconditionally, line 490), gate permitting emit the now-empty
  buffer via `HandleImageData`, clear again;
* otherwise (lines 498-511): append the fragment; if the buffer length is
  `> 5000`, gate permitting emit via `HandleImageDataPart`, then clear
  (unconditionally, line 508). -/
def imageBranch (s : ReceiverState) (e : ChunkMsg) :
    ReceiverState × List SinkCall :=
  if e.num = some (-1) then
    let calls1 := if s.messageInnerHTML ≠ "waiting" then
        [SinkCall.imagePart s.CopiedImageString] else []
    let s1 := { s with
      CopiedImageString := ""
      messageInnerHTML := "last " }
    let calls2 := if s1.messageInnerHTML ≠ "waiting" then
        [SinkCall.imageFinal s1.CopiedImageString] else []
    (s1, calls1 ++ calls2)
  else if e.num = some 0 then
    let s1 := { s with CopiedImageString := jsStr e.message }
    if s1.CopiedImageString.length < 1000 then
      let calls1 := if s1.messageInnerHTML ≠ "waiting" then
          [SinkCall.imagePart s1.CopiedImageString] else []
      let s2 := { s1 with CopiedImageString := "" }
      let calls2 := if s2.messageInnerHTML ≠ "waiting" then
          [SinkCall.imageFinal s2.CopiedImageString] else []
      ({ s2 with CopiedImageString := "" }, calls1 ++ calls2)
    else (s1, [])
  else
    let s1 := { s with CopiedImageString := s.CopiedImageString ++ jsStr e.message }
    if 5000 < s1.CopiedImageString.length then
      let calls1 := if s1.messageInnerHTML ≠ "waiting" then
          [SinkCall.imagePart s1.CopiedImageString] else []
      ({ s1 with CopiedImageString := "" }, calls1)
    else (s1, [])

/-- States reachable from page load by ingesting messages. -/
inductive Reachable : ReceiverState → Prop where
  | init : Reachable initialState
  | step (s : ReceiverState) (e : ChunkMsg) :
      Reachable s → Reachable (onMessageReceived s e).1

theorem onMessageReceived_calls (s : ReceiverState) (e : ChunkMsg) :
    (onMessageReceived s e).2 = [] := by
  unfold onMessageReceived
  split
  · rfl
  · split
    · rfl
    · split <;> rfl

theorem runChunks_calls (s : ReceiverState) (es : List ChunkMsg) :
    (runChunks s es).2 = [] := by
  induction es generalizing s with
  | nil => rfl
  | cons e rest ih =>
    simp [runChunks, onMessageReceived_calls, ih]

theorem onMessageReceived_sound (s : ReceiverState) (e : ChunkMsg) :
    (onMessageReceived s e).1.CopiedSoundString = s.CopiedSoundString := by
  unfold onMessageReceived
  split
  · rfl
  · split
    · rfl
    · split <;> rfl

theorem onMessageReceived_total (s : ReceiverState) (e : ChunkMsg) :
    (onMessageReceived s e).1.totalAudio = s.totalAudio := by
  unfold onMessageReceived
  split
  · rfl
  · split
    · rfl
    · split <;> rfl

theorem reachable_sound_empty {s : ReceiverState} (h : Reachable s) :
    s.CopiedSoundString = "" := by
  induction h with
  | init => rfl
  | step s e _ ih => rw [onMessageReceived_sound, ih]

theorem reachable_total_zero {s : ReceiverState} (h : Reachable s) :
    s.totalAudio = 0 := by
  induction h with
  | init => rfl
  | step s e _ ih => rw [onMessageReceived_total, ih]

theorem image_after_start (s : ReceiverState) (d m : Option String)
    (hd : d ≠ some "tasks") :
    (onMessageReceived s ⟨d, some 0, m⟩).1.CopiedImageString = jsStr m := by
  simp [onMessageReceived, hd]

theorem image_after_end (s : ReceiverState) (d m : Option String)
    (hd : d ≠ some "tasks") :
    (onMessageReceived s ⟨d, some (-1), m⟩).1.CopiedImageString =
      s.CopiedImageString ++ jsStr m := by
  simp [onMessageReceived, hd]

theorem image_after_middle (s : ReceiverState) (d m : Option String) (k : Int)
    (hd : d ≠ some "tasks") (h0 : k ≠ 0) (h1 : k ≠ -1) :
    (onMessageReceived s ⟨d, some k, m⟩).1.CopiedImageString =
      s.CopiedImageString ++ jsStr m := by
  simp [onMessageReceived, hd, h0, h1]

theorem jsStr_some (t : String) : jsStr (some t) = t := rfl

theorem mkrep_len (n : Nat) (c : Char) :
    (String.mk (List.replicate n c)).length = n := by
  simp [String.length_mk]

/-- What the unreachable audio block would do on a threshold-crossing MIDDLE
chunk (lines 445-461) with the readiness gate open: account the buffer into
`totalAudio`, emit it via `HandleSoundDataPart`, and clear it. -/
theorem audioBranch_middle (s : ReceiverState) (d m : Option String) (k : Int)
    (h0 : k ≠ 0) (h1 : k ≠ -1)
    (hlen : 5000 < s.CopiedSoundString.length + (jsStr m).length)
    (hgate : s.messageInnerHTML ≠ "waiting") :
    audioBranch s ⟨d, some k, m⟩ =
      ({ s with
          totalAudio := s.totalAudio + (s.CopiedSoundString ++ jsStr m).length
          messageInnerHTML := "" ++ toString (s.CopiedSoundString ++ jsStr m).length
            ++ " " ++ toString (s.totalAudio + (s.CopiedSoundString ++ jsStr m).length)
          CopiedSoundString := "" },
       [SinkCall.soundPart (s.CopiedSoundString ++ jsStr m)]) := by
  simp [audioBranch, h0, h1, hlen, hgate, String.length_append]

theorem runChunks_append (s : ReceiverState) (xs ys : List ChunkMsg) :
    (runChunks s (xs ++ ys)).1 = (runChunks (runChunks s xs).1 ys).1 := by
  induction xs generalizing s with
  | nil => rfl
  | cons x xs ih => simp [runChunks, ih]

theorem runChunks_middles (s : ReceiverState) (d : Option String)
    (hd : d ≠ some "tasks") (mids : List (Int × Option String))
    (hm : ∀ p ∈ mids, p.1 ≠ 0 ∧ p.1 ≠ -1) :
    (runChunks s (mids.map (fun p => (⟨d, some p.1, p.2⟩ : ChunkMsg)))).1.CopiedImageString =
      mids.foldl (fun a p => a ++ jsStr p.2) s.CopiedImageString := by
  induction mids generalizing s with
  | nil => rfl
  | cons p ps ih =>
    have hp := hm p (by simp)
    simp only [List.map_cons, List.foldl_cons]
    have hstep : (runChunks s ((⟨d, some p.1, p.2⟩ : ChunkMsg) ::
        ps.map (fun q => (⟨d, some q.1, q.2⟩ : ChunkMsg)))).1 =
        (runChunks (onMessageReceived s ⟨d, some p.1, p.2⟩).1
          (ps.map (fun q => (⟨d, some q.1, q.2⟩ : ChunkMsg)))).1 := by
      simp [runChunks]
    rw [hstep, ih _ (fun q hq => hm q (by simp [hq])),
      image_after_middle _ _ _ _ hd hp.1 hp.2]

/-- Content of a sink call. -/
def callContent : SinkCall → String
  | .soundPart c => c
  | .soundFinal c => c
  | .imagePart c => c
  | .imageFinal c => c

/-- Is the sink call a "final" (end-of-payload) call? -/
def isFinalCall : SinkCall → Bool
  | .soundFinal _ => true
  | .imageFinal _ => true
  | _ => false

/-- Concatenated content of a sink-call trace. -/
def traceContent (t : List SinkCall) : String :=
  t.foldl (fun a c => a ++ callContent c) ""

/-- C10: the diagnostic counter `totalAudio` (line 249) starts at 0 and is
non-decreasing across every ingest.  In the reachable code it is in fact
never modified at all (its only updates, lines 413 and 453, sit in the
unreachable audio block), so it stays 0 and is trivially monotone. -/
theorem C10_totalAudio_monotone :
    initialState.totalAudio = 0 ∧
    ∀ (s : ReceiverState) (e : ChunkMsg),
      s.totalAudio ≤ (onMessageReceived s e).1.totalAudio := by
  refine ⟨rfl, fun s e => ?_⟩
  rw [onMessageReceived_total]

/-- C1 (counterexample): on the well-formed audio sequence
`[START "abc", END ""]` the handler makes no sink call at all: the filtered
count of "final" calls is 0 (the claim requires exactly one), and the total
content delivered to sinks is `""` while the fragment concatenation is
`"abc"`. -/
theorem C1_counterexample :
    ((runChunks initialState [⟨some "audio", some 0, some "abc"⟩,
        ⟨some "audio", some (-1), some ""⟩]).2.filter isFinalCall).length = 0 ∧
    traceContent (runChunks initialState [⟨some "audio", some 0, some "abc"⟩,
        ⟨some "audio", some (-1), some ""⟩]).2 = "" ∧
    ("abc" : String) ++ "" ≠ "" := by
  decide

/-- C1 (amended): ingesting a well-formed `START`, `MIDDLE`*, `END` sequence
on any channel produces no `sinkPartial` or `sinkFinal` call whatsoever
(the reassembly/sink code at lines 405-511 is unreachable); instead the
concatenation of all `payloadFragment` values ends up held in the
image-channel buffer `CopiedImageString`, whatever the channel. -/
theorem C1_amended (s : ReceiverState) (d : Option String) (hd : d ≠ some "tasks")
    (f0 : Option String) (mids : List (Int × Option String))
    (hm : ∀ p ∈ mids, p.1 ≠ 0 ∧ p.1 ≠ -1) (fend : Option String) :
    (runChunks s (⟨d, some 0, f0⟩ ::
        (mids.map (fun p => (⟨d, some p.1, p.2⟩ : ChunkMsg)) ++ [⟨d, some (-1), fend⟩]))).2 = [] ∧
    (runChunks s (⟨d, some 0, f0⟩ ::
        (mids.map (fun p => (⟨d, some p.1, p.2⟩ : ChunkMsg)) ++ [⟨d, some (-1), fend⟩]))).1.CopiedImageString =
      mids.foldl (fun a p => a ++ jsStr p.2) (jsStr f0) ++ jsStr fend := by
  constructor
  · exact runChunks_calls _ _
  · have hstep : (runChunks s ((⟨d, some 0, f0⟩ : ChunkMsg) ::
        (mids.map (fun p => (⟨d, some p.1, p.2⟩ : ChunkMsg)) ++ [⟨d, some (-1), fend⟩]))).1 =
        (runChunks (onMessageReceived s ⟨d, some 0, f0⟩).1
          (mids.map (fun p => (⟨d, some p.1, p.2⟩ : ChunkMsg)) ++ [⟨d, some (-1), fend⟩])).1 := by
      simp [runChunks]
    have hlast : ∀ t : ReceiverState,
        (runChunks t [(⟨d, some (-1), fend⟩ : ChunkMsg)]).1 =
          (onMessageReceived t ⟨d, some (-1), fend⟩).1 := by
      intro t; simp [runChunks]
    rw [hstep, runChunks_append, hlast, image_after_end _ _ _ hd,
      runChunks_middles _ _ hd _ hm, image_after_start _ _ _ hd]

/-- C1 (amended, witness): the audio sequence
`START "ab", MIDDLE "cd", MIDDLE "ef", END "gh"` yields an empty sink trace
and leaves `"abcdefgh"` in the image-channel buffer. -/
theorem C1_amended_witness :
    (runChunks initialState [⟨some "audio", some 0, some "ab"⟩,
      ⟨some "audio", some 1, some "cd"⟩, ⟨some "audio", some 2, some "ef"⟩,
      ⟨some "audio", some (-1), some "gh"⟩]).2 = [] ∧
    (runChunks initialState [⟨some "audio", some 0, some "ab"⟩,
      ⟨some "audio", some 1, some "cd"⟩, ⟨some "audio", some 2, some "ef"⟩,
      ⟨some "audio", some (-1), some "gh"⟩]).1.CopiedImageString = "abcdefgh" := by
  have h := C1_amended initialState (some "audio") (by decide) (some "ab")
    [(1, some "cd"), (2, some "ef")] (by decide) (some "gh")
  exact ⟨h.1, h.2.trans (by decide)⟩

/-- C2 (counterexample): a small audio `START` (`"abc"`, length 3 < 1000)
fires no sink call in the reachable code; and even the unreachable audio
block (lines 425-444) would fire `HandleSoundDataPart "abc"` followed by
`HandleSoundData ""` — the final call carries the empty string, not the same
content as the partial call. -/
theorem C2_counterexample :
    (onMessageReceived initialState ⟨some "audio", some 0, some "abc"⟩).2 = [] ∧
    ("abc" : String).length < 1000 ∧
    (audioBranch initialState ⟨some "audio", some 0, some "abc"⟩).2 =
      [SinkCall.soundPart "abc", SinkCall.soundFinal ""] ∧
    "" ≠ ("abc" : String) := by
  decide

/-- C2 (amended): a `START` chunk with a small fragment (length < 1000) on
any channel fires no sink call and simply resets the image-channel buffer to
the fragment; the audio buffer is untouched. -/
theorem C2_amended (s : ReceiverState) (d m : Option String)
    (hd : d ≠ some "tasks") (_hlen : (jsStr m).length < 1000) :
    (onMessageReceived s ⟨d, some 0, m⟩).2 = [] ∧
    (onMessageReceived s ⟨d, some 0, m⟩).1.CopiedImageString = jsStr m ∧
    (onMessageReceived s ⟨d, some 0, m⟩).1.CopiedSoundString = s.CopiedSoundString :=
  ⟨onMessageReceived_calls _ _, image_after_start _ _ _ hd,
    onMessageReceived_sound _ _⟩

/-- C2 (amended, witness): concrete small audio `START "abc"`. -/
theorem C2_amended_witness :
    (onMessageReceived initialState ⟨some "audio", some 0, some "abc"⟩).2 = [] ∧
    (onMessageReceived initialState ⟨some "audio", some 0, some "abc"⟩).1.CopiedImageString = "abc" ∧
    (onMessageReceived initialState ⟨some "audio", some 0, some "abc"⟩).1.CopiedSoundString = "" := by
  have h := C2_amended initialState (some "audio") (some "abc") (by decide) (by decide)
  exact ⟨h.1, h.2.1.trans (by decide), h.2.2.trans (by decide)⟩

/-- C3: evaluation at the failing input.  With `"img"` pending in the image
buffer (reachable via one image `MIDDLE`), the audio-channel `START`
`⟨"audio", 0, "abc"⟩` resets the image channel's `CopiedImageString` to
`"abc"` — because the unconditional marker dispatch at lines 273-321 writes
every message into `CopiedImageString` and returns.  The audio block the
dispatch shadows (lines 425-444, `audioBranch`) would have left the image
buffer untouched at `"img"`. -/
theorem C3_code_eval :
    ((onMessageReceived initialState ⟨some "image", some 4, some "img"⟩).1.CopiedImageString = "img") ∧
    (onMessageReceived (onMessageReceived initialState ⟨some "image", some 4, some "img"⟩).1
      ⟨some "audio", some 0, some "abc"⟩).1.CopiedImageString = "abc" ∧
    (audioBranch (onMessageReceived initialState ⟨some "image", some 4, some "img"⟩).1
      ⟨some "audio", some 0, some "abc"⟩).1.CopiedImageString = "img" := by
  decide

/-- C4 (counterexample): the unknown-channel chunk `⟨"video", 0, "x"⟩` is not
dropped — it overwrites the image-channel buffer with `"x"`. -/
theorem C4_counterexample :
    (onMessageReceived initialState ⟨some "video", some 0, some "x"⟩).1.CopiedImageString = "x" ∧
    initialState.CopiedImageString ≠ "x" := by
  decide

/-- C4 (amended): a chunk on an unregistered channel such as `"video"`
produces no sink call and no exception (the handler is total on it), but it
is not dropped: the marker dispatch at lines 273-321 mutates the
image-channel buffer with its fragment exactly as it would for an image
chunk, while the audio buffer and `totalAudio` stay unchanged. -/
theorem C4_amended (s : ReceiverState) (n : Option Int) (m : Option String) :
    (onMessageReceived s ⟨some "video", n, m⟩).2 = [] ∧
    (onMessageReceived s ⟨some "video", n, m⟩).1.CopiedSoundString = s.CopiedSoundString ∧
    (onMessageReceived s ⟨some "video", n, m⟩).1.totalAudio = s.totalAudio ∧
    (onMessageReceived s ⟨some "video", n, m⟩).1.CopiedImageString =
      (if n = some 0 then jsStr m else s.CopiedImageString ++ jsStr m) := by
  refine ⟨onMessageReceived_calls _ _, onMessageReceived_sound _ _,
    onMessageReceived_total _ _, ?_⟩
  unfold onMessageReceived
  split_ifs with h1 h2 h3 <;> simp_all

/-- C5: evaluation at the failing input.  A 6000-character audio `MIDDLE`
fragment is appended to the image-channel buffer (not the audio buffer,
which stays empty), the resulting buffer length 6000 exceeds the flush
threshold 5000, and yet no sink call is made and nothing is cleared.  The
shadowed audio block (lines 445-461, `audioBranch`) would have flushed
exactly that fragment via `HandleSoundDataPart`. -/
theorem C5_code_eval :
    (onMessageReceived initialState
      ⟨some "audio", some 1, some (String.mk (List.replicate 6000 'd'))⟩).2 = [] ∧
    (onMessageReceived initialState
      ⟨some "audio", some 1, some (String.mk (List.replicate 6000 'd'))⟩).1.CopiedSoundString = "" ∧
    5000 < (onMessageReceived initialState
      ⟨some "audio", some 1, some (String.mk (List.replicate 6000 'd'))⟩).1.CopiedImageString.length ∧
    (audioBranch initialState
      ⟨some "audio", some 1, some (String.mk (List.replicate 6000 'd'))⟩).2 =
      [SinkCall.soundPart (String.mk (List.replicate 6000 'd'))] := by
  have hsnd : initialState.CopiedSoundString = "" := rfl
  refine ⟨onMessageReceived_calls _ _, ?_, ?_, ?_⟩
  · rw [onMessageReceived_sound, hsnd]
  · rw [image_after_middle _ _ _ _ (by decide) (by decide) (by decide),
      String.length_append, jsStr_some, mkrep_len]
    decide
  · rw [audioBranch_middle _ _ _ _ (by decide) (by decide) ?hl (by decide),
      jsStr_some, hsnd, String.empty_append]
    case hl =>
      rw [jsStr_some, mkrep_len, hsnd]
      decide

/-- C6 (counterexample): with `"abc"` pending in the image buffer, the image
`END` chunk `⟨"image", -1, "z"⟩` does not emit the remaining buffer and does
not clear it: it appends `"z"`, leaving `"abcz"`, makes no sink call, and
leaves `totalAudio` at 0. -/
theorem C6_counterexample :
    ((onMessageReceived initialState ⟨some "image", some 3, some "abc"⟩).1.CopiedImageString = "abc") ∧
    (onMessageReceived (onMessageReceived initialState ⟨some "image", some 3, some "abc"⟩).1
      ⟨some "image", some (-1), some "z"⟩).2 = [] ∧
    (onMessageReceived (onMessageReceived initialState ⟨some "image", some 3, some "abc"⟩).1
      ⟨some "image", some (-1), some "z"⟩).1.CopiedImageString = "abcz" ∧
    (onMessageReceived (onMessageReceived initialState ⟨some "image", some 3, some "abc"⟩).1
      ⟨some "image", some (-1), some "z"⟩).1.totalAudio = 0 := by
  decide

/-- C6 (amended): an `END` chunk (`num == -1`) appends its fragment to the
image-channel buffer and fires no sink call; no buffer is emitted or cleared
and the `totalAudio` diagnostic is unchanged (the `END` handling at lines
407-424 / 464-478 is unreachable). -/
theorem C6_amended (s : ReceiverState) (d m : Option String)
    (hd : d ≠ some "tasks") :
    (onMessageReceived s ⟨d, some (-1), m⟩).2 = [] ∧
    (onMessageReceived s ⟨d, some (-1), m⟩).1.CopiedImageString =
      s.CopiedImageString ++ jsStr m ∧
    (onMessageReceived s ⟨d, some (-1), m⟩).1.CopiedSoundString = s.CopiedSoundString ∧
    (onMessageReceived s ⟨d, some (-1), m⟩).1.totalAudio = s.totalAudio :=
  ⟨onMessageReceived_calls _ _, image_after_end _ _ _ hd,
    onMessageReceived_sound _ _, onMessageReceived_total _ _⟩

/-- C6 (amended, witness): concrete `END "z"` after a pending `"abc"`. -/
theorem C6_amended_witness :
    (onMessageReceived (onMessageReceived initialState ⟨some "image", some 3, some "abc"⟩).1
      ⟨some "image", some (-1), some "z"⟩).2 = [] ∧
    (onMessageReceived (onMessageReceived initialState ⟨some "image", some 3, some "abc"⟩).1
      ⟨some "image", some (-1), some "z"⟩).1.CopiedImageString = "abcz" ∧
    (onMessageReceived (onMessageReceived initialState ⟨some "image", some 3, some "abc"⟩).1
      ⟨some "image", some (-1), some "z"⟩).1.CopiedSoundString = "" ∧
    (onMessageReceived (onMessageReceived initialState ⟨some "image", some 3, some "abc"⟩).1
      ⟨some "image", some (-1), some "z"⟩).1.totalAudio = 0 := by
  have h := C6_amended (onMessageReceived initialState ⟨some "image", some 3, some "abc"⟩).1
    (some "image") (some "z") (by decide)
  exact ⟨h.1, h.2.1.trans (by decide), h.2.2.1.trans (by decide),
    h.2.2.2.trans (by decide)⟩

/-- C7: a `START` on a channel holding pending unflushed content discards
that content.  In the reachable code this holds: the audio buffer is
invariantly empty (so only the image channel can ever hold pending content),
an image-channel `START` overwrites `CopiedImageString` with the new
fragment, and no subsequent ingestion ever produces a sink call, so the
discarded content can never appear in one. -/
theorem C7_start_discards (s : ReceiverState) (hreach : Reachable s)
    (d m : Option String) (hd : d ≠ some "tasks") (_ha : d ≠ some "audio") :
    s.CopiedSoundString = "" ∧
    (onMessageReceived s ⟨d, some 0, m⟩).1.CopiedImageString = jsStr m ∧
    ∀ es, (runChunks (onMessageReceived s ⟨d, some 0, m⟩).1 es).2 = [] :=
  ⟨reachable_sound_empty hreach, image_after_start _ _ _ hd,
    fun es => runChunks_calls _ es⟩

/-- C7 (witness): `"pending"` accumulates via an image `MIDDLE`, and the
image `START "new"` replaces it. -/
theorem C7_start_discards_witness :
    (onMessageReceived initialState ⟨some "image", some 7, some "pending"⟩).1.CopiedImageString = "pending" ∧
    (onMessageReceived (onMessageReceived initialState ⟨some "image", some 7, some "pending"⟩).1
      ⟨some "image", some 0, some "new"⟩).1.CopiedImageString = "new" := by
  have h := C7_start_discards
    (onMessageReceived initialState ⟨some "image", some 7, some "pending"⟩).1
    (Reachable.step _ _ Reachable.init) (some "image") (some "new")
    (by decide) (by decide)
  exact ⟨by decide, h.2.1.trans (by decide)⟩

/-- C8: evaluation at the failing input.  Two successive image `MIDDLE`
chunks of 6000 characters each: after the first ingest the buffer length is
6000 > 5000, and after the next `MIDDLE` ingest it is 12000, still above the
threshold, with no sink call — the buffer stays above the flush threshold
across further `MIDDLE` ingests because the flush code (lines 445-461 /
498-511) is unreachable. -/
theorem C8_code_eval :
    5000 < (onMessageReceived initialState
      ⟨some "image", some 1, some (String.mk (List.replicate 6000 'd'))⟩).1.CopiedImageString.length ∧
    (onMessageReceived (onMessageReceived initialState
        ⟨some "image", some 1, some (String.mk (List.replicate 6000 'd'))⟩).1
      ⟨some "image", some 2, some (String.mk (List.replicate 6000 'd'))⟩).2 = [] ∧
    (onMessageReceived (onMessageReceived initialState
        ⟨some "image", some 1, some (String.mk (List.replicate 6000 'd'))⟩).1
      ⟨some "image", some 2, some (String.mk (List.replicate 6000 'd'))⟩).1.CopiedImageString.length = 12000 := by
  refine ⟨?_, onMessageReceived_calls _ _, ?_⟩
  · rw [image_after_middle _ _ _ _ (by decide) (by decide) (by decide),
      String.length_append, jsStr_some, mkrep_len]
    decide
  · rw [image_after_middle _ _ _ _ (by decide) (by decide) (by decide),
      String.length_append, jsStr_some, mkrep_len,
      image_after_middle _ _ _ _ (by decide) (by decide) (by decide),
      String.length_append, jsStr_some, mkrep_len]
    decide

/-- C9 (counterexample): a `MIDDLE` chunk with a missing `payloadFragment`
is not an empty append: JavaScript coerces `undefined`, growing the image
buffer from `""` to the 9-character string `"undefined"`. -/
theorem C9_counterexample :
    (onMessageReceived initialState ⟨some "audio", some 1, none⟩).1.CopiedImageString = "undefined" ∧
    initialState.CopiedImageString = "" ∧ ("undefined" : String) ≠ "" := by
  decide

/-- C9 (amended): a chunk with a missing `payloadFragment` appends the
literal 9-character string `"undefined"` (JavaScript's string coercion of
`undefined`) to the image-channel buffer — after a reset to `""` when the
marker is `START` — with no sink call and no exception. -/
theorem C9_amended (s : ReceiverState) (d : Option String) (n : Option Int)
    (hd : d ≠ some "tasks") :
    (onMessageReceived s ⟨d, n, none⟩).2 = [] ∧
    (onMessageReceived s ⟨d, n, none⟩).1.CopiedImageString =
      (if n = some 0 then "" else s.CopiedImageString) ++ "undefined" := by
  refine ⟨onMessageReceived_calls _ _, ?_⟩
  unfold onMessageReceived
  split_ifs with h1 h2 h3 <;> simp_all [jsStr, String.empty_append]

/-- C9 (amended, witness): concrete fragment-less audio `MIDDLE`. -/
theorem C9_amended_witness :
    (onMessageReceived initialState ⟨some "audio", some 1, none⟩).2 = [] ∧
    (onMessageReceived initialState ⟨some "audio", some 1, none⟩).1.CopiedImageString = "undefined" := by
  have h := C9_amended initialState (some "audio") (some 1) (by decide)
  exact ⟨h.1, h.2.trans (by decide)⟩

end CastReceiver
